import Mathlib

/-!
Verification of the LMs_Session repository (a single educational notebook,
`lms_notebook.ipynb`) against its natural-language specification.

The notebook is glue code: it sequences calls into the external `transformers`
and `bertviz` libraries.  We give a shallow embedding in two layers:

* a deep embedding of the notebook's own Python code (cells, statements,
  expressions), transcribed statement by statement from `lms_notebook.ipynb`,
  over which the structural claims (call arguments, cell ordering, absence of
  exception handling, side-effecting statements, attention/token dataflow)
  are decided;
* small executable models, written from the specification's own description,
  of the external operations the behavioural claims quote (the fill-mask
  pipeline, word-piece tokenisation, T5 generation and decoding, checkpoint
  loading), each marked `Modelled from the spec:` in its doc comment.
-/

namespace LMs

/-- Expressions of the Python fragment used by the notebook.  Each constructor
mirrors a Python syntactic form appearing in `lms_notebook.ipynb`: names,
string/int/bool literals, attribute access, calls with positional and keyword
arguments, subscripts, `**`-unpacking of an argument, binary operators,
f-strings (a list of literal and interpolated parts), and list comprehensions. -/
inductive PyExpr where
  | name (s : String)
  | strLit (s : String)
  | intLit (n : Int)
  | boolLit (b : Bool)
  | attr (e : PyExpr) (field : String)
  | call (f : PyExpr) (args : List PyExpr) (kwargs : List (String × PyExpr))
  | subscript (e : PyExpr) (i : PyExpr)
  | star (e : PyExpr)
  | binop (op : String) (a b : PyExpr)
  | fstr (parts : List PyExpr)
  | listComp (body : PyExpr) (v : String) (iter : PyExpr)

/-- Statements of the Python fragment: assignments, bare expression statements,
`from _ import _`, notebook shell escapes (`!cmd`), notebook magics (`%cmd`),
and `try`/`except` blocks (present in the syntax so that the absence of
exception handling in the notebook is a fact about its code, not about the
grammar). -/
inductive PyStmt where
  | assign (lhs : String) (rhs : PyExpr)
  | exprStmt (e : PyExpr)
  | importFrom (module : String) (names : List String)
  | shell (cmd : String)
  | magic (cmd : String)
  | tryExcept (body : List PyStmt) (handler : List PyStmt)

/-- A notebook cell is a list of statements. -/
abbrev Cell := List PyStmt

open PyExpr PyStmt

/-- Code cell 1 of `lms_notebook.ipynb`: dependency installation. -/
def cellInstall : Cell :=
  [ .shell "wget https://raw.githubusercontent.com/wrmthorne/LMs_Session/main/requirements.txt",
    .magic "pip install -r requirements.txt" ]

/-- Code cell 2: imports, logging verbosity, model identifiers. -/
def cellImports : Cell :=
  [ .importFrom "transformers"
      ["AutoModel", "AutoTokenizer", "pipeline", "utils", "T5ForConditionalGeneration"],
    .importFrom "bertviz" ["model_view", "head_view"],
    .importFrom "bertviz.neuron_view" ["show"],
    .importFrom "bertviz.transformers_neuron_view" ["BertModel", "BertTokenizer"],
    .exprStmt (.call (.attr (.attr (.name "utils") "logging") "set_verbosity_error") [] []),
    .assign "model_type" (.strLit "bert"),
    .assign "model_version" (.strLit "bert-base-cased") ]

/-- Code cell 3: tokenising `WANDISCO`. -/
def cellTokenise : Cell :=
  [ .assign "tokenizer"
      (.call (.attr (.name "AutoTokenizer") "from_pretrained") [.name "model_version"] []),
    .assign "test_string" (.strLit "WANDISCO"),
    .assign "token_ids"
      (.call (.attr (.name "tokenizer") "encode") [.name "test_string"] []),
    .exprStmt (.call (.name "print") [.fstr [.strLit "IDS: ", .name "token_ids"]] []),
    .assign "tokens"
      (.call (.attr (.name "tokenizer") "convert_ids_to_tokens") [.name "token_ids"] []),
    .exprStmt (.call (.name "print") [.fstr [.strLit "Tokens: ", .name "tokens"]] []) ]

/-- Code cell 4: the fill-mask pipeline. -/
def cellUnmasker : Cell :=
  [ .assign "unmasker"
      (.call (.name "pipeline") [.strLit "fill-mask"] [("model", .name "model_version")]),
    .assign "test_string" (.strLit "WANDISCO is a [MASK] company"),
    .exprStmt (.call (.name "unmasker") [.name "test_string"] []) ]

/-- Code cell 5: bias comparison via two fill-mask calls. -/
def cellBias : Cell :=
  [ .assign "male_preds"
      (.call (.name "unmasker") [.strLit "The man worked as a [MASK]."] []),
    .assign "female_preds"
      (.call (.name "unmasker") [.strLit "The woman worked as a [MASK]."] []),
    .exprStmt (.call (.name "print")
      [.fstr [.strLit "Male predictions: ",
        .listComp (.subscript (.name "pred") (.strLit "token_str")) "pred" (.name "male_preds")]] []),
    .exprStmt (.call (.name "print")
      [.fstr [.strLit "Female predictions: ",
        .listComp (.subscript (.name "pred") (.strLit "token_str")) "pred" (.name "female_preds")]] []) ]

/-- Code cell 6: neuron view of BERT attention. -/
def cellNeuronView : Cell :=
  [ .assign "sentence_a" (.strLit "The rabbit ran up the hill and the fox followed"),
    .assign "bert_model"
      (.call (.attr (.name "BertModel") "from_pretrained") [.name "model_version"]
        [("output_attentions", .boolLit true)]),
    .assign "bert_tokenizer"
      (.call (.attr (.name "BertTokenizer") "from_pretrained") [.name "model_version"]
        [("do_lower_case", .boolLit false)]),
    .exprStmt (.call (.name "show")
      [.name "bert_model", .name "model_type", .name "bert_tokenizer", .name "sentence_a"]
      [("layer", .intLit 2), ("head", .intLit 0)]) ]

/-- Code cell 7: model view of BERT attention for one sentence. -/
def cellModelView : Cell :=
  [ .assign "model"
      (.call (.attr (.name "AutoModel") "from_pretrained") [.name "model_version"]
        [("output_attentions", .boolLit true)]),
    .assign "tokenizer"
      (.call (.attr (.name "AutoTokenizer") "from_pretrained") [.name "model_version"] []),
    .assign "inputs"
      (.call (.attr (.name "tokenizer") "encode") [.name "sentence_a"]
        [("return_tensors", .strLit "pt")]),
    .assign "outputs" (.call (.name "model") [.name "inputs"] []),
    .assign "attention" (.subscript (.name "outputs") (.intLit (-1))),
    .assign "tokens"
      (.call (.attr (.name "tokenizer") "convert_ids_to_tokens")
        [.subscript (.name "inputs") (.intLit 0)] []),
    .exprStmt (.call (.name "model_view") [.name "attention", .name "tokens"] []) ]

/-- Code cell 8: model view of BERT attention for a sentence pair. -/
def cellModelViewPair : Cell :=
  [ .assign "sentence_b" (.strLit "The rabbit ran up the hill and the fox did not follow"),
    .assign "inputs"
      (.call (.attr (.name "tokenizer") "encode") [.name "sentence_a", .name "sentence_b"]
        [("return_tensors", .strLit "pt")]),
    .assign "outputs" (.call (.name "model") [.name "inputs"] []),
    .assign "attention" (.subscript (.name "outputs") (.intLit (-1))),
    .assign "tokens"
      (.call (.attr (.name "tokenizer") "convert_ids_to_tokens")
        [.subscript (.name "inputs") (.intLit 0)] []),
    .exprStmt (.call (.name "print")
      [.call (.attr (.strLit " ") "join") [.name "tokens"] []] []),
    .exprStmt (.call (.name "model_view") [.name "attention", .name "tokens"] []) ]

/-- Code cell 9: T5 translation via `generate` and `batch_decode`. -/
def cellT5Translate : Cell :=
  [ .assign "t5_model"
      (.call (.attr (.name "T5ForConditionalGeneration") "from_pretrained") [.strLit "t5-small"]
        [("output_attentions", .boolLit true)]),
    .assign "t5_tokenizer"
      (.call (.attr (.name "AutoTokenizer") "from_pretrained") [.strLit "t5-small"]
        [("model_max_length", .intLit 512)]),
    .assign "input"
      (.call (.name "t5_tokenizer")
        [.strLit "translate English to German: I flew to Germany."]
        [("return_tensors", .strLit "pt")]),
    .assign "output_ids"
      (.call (.attr (.name "t5_model") "generate") [.star (.name "input")]
        [("max_length", .intLit 512)]),
    .assign "output_tokens"
      (.call (.attr (.name "t5_tokenizer") "batch_decode") [.name "output_ids"] []),
    .exprStmt (.name "output_tokens") ]

/-- Code cell 10: T5 summarisation with the same generation pattern. -/
def cellT5Summarise : Cell :=
  [ .assign "prompt" (.strLit "summarize:"),
    .assign "prefix"
      (.strLit "This is a long story about the rabbit and the fox. The rabbit ran up the hill to escape the fox. One time the fox followed. The other time, it did not."),
    .assign "input"
      (.call (.name "t5_tokenizer")
        [.binop "+" (.binop "+" (.name "prompt") (.strLit " ")) (.name "prefix")]
        [("return_tensors", .strLit "pt")]),
    .assign "output_ids"
      (.call (.attr (.name "t5_model") "generate") [.star (.name "input")]
        [("max_length", .intLit 512)]),
    .assign "output_tokens"
      (.call (.attr (.name "t5_tokenizer") "batch_decode") [.name "output_ids"] []),
    .exprStmt (.name "output_tokens") ]

/-- Code cell 11: model view of T5 encoder/decoder/cross attention. -/
def cellT5View : Cell :=
  [ .assign "encoder_input_ids"
      (.attr (.call (.name "t5_tokenizer")
        [.strLit "translate English to German: I flew to Germany."]
        [("return_tensors", .strLit "pt"), ("add_special_tokens", .boolLit true)]) "input_ids"),
    .assign "decoder_input_ids"
      (.attr (.call (.name "t5_tokenizer") []
        [("text_target", .strLit "Ich flog nach Deutschland."),
         ("return_tensors", .strLit "pt"), ("add_special_tokens", .boolLit true)]) "input_ids"),
    .assign "outputs"
      (.call (.name "t5_model") []
        [("input_ids", .name "encoder_input_ids"),
         ("decoder_input_ids", .name "decoder_input_ids")]),
    .assign "encoder_text"
      (.call (.attr (.name "t5_tokenizer") "convert_ids_to_tokens")
        [.subscript (.name "encoder_input_ids") (.intLit 0)] []),
    .assign "decoder_text"
      (.call (.attr (.name "t5_tokenizer") "convert_ids_to_tokens")
        [.subscript (.name "decoder_input_ids") (.intLit 0)] []),
    .exprStmt (.call (.name "model_view") []
      [("encoder_attention", .attr (.name "outputs") "encoder_attentions"),
       ("decoder_attention", .attr (.name "outputs") "decoder_attentions"),
       ("cross_attention", .attr (.name "outputs") "cross_attentions"),
       ("encoder_tokens", .name "encoder_text"),
       ("decoder_tokens", .name "decoder_text")]) ]

/-- The notebook: its eleven code cells in document order. -/
def notebook : List Cell :=
  [cellInstall, cellImports, cellTokenise, cellUnmasker, cellBias, cellNeuronView,
   cellModelView, cellModelViewPair, cellT5Translate, cellT5Summarise, cellT5View]

/-! ### Structural analysis of the embedded notebook -/

mutual

/-- All subexpressions of an expression, the expression itself included. -/
def subE : PyExpr → List PyExpr
  | e@(.name _) => [e]
  | e@(.strLit _) => [e]
  | e@(.intLit _) => [e]
  | e@(.boolLit _) => [e]
  | e@(.attr x _) => e :: subE x
  | e@(.call f a k) => e :: (subE f ++ subEL a ++ subEK k)
  | e@(.subscript x i) => e :: (subE x ++ subE i)
  | e@(.star x) => e :: subE x
  | e@(.binop _ x y) => e :: (subE x ++ subE y)
  | e@(.fstr ps) => e :: subEL ps
  | e@(.listComp b _ it) => e :: (subE b ++ subE it)

/-- Subexpressions of every expression in a list. -/
def subEL : List PyExpr → List PyExpr
  | [] => []
  | e :: es => subE e ++ subEL es

/-- Subexpressions of every keyword-argument value. -/
def subEK : List (String × PyExpr) → List PyExpr
  | [] => []
  | (_, e) :: ps => subE e ++ subEK ps

end

mutual

/-- The expressions a statement evaluates (descending into `try` blocks). -/
def stmtExprs : PyStmt → List PyExpr
  | .assign _ r => [r]
  | .exprStmt e => [e]
  | .importFrom _ _ => []
  | .shell _ => []
  | .magic _ => []
  | .tryExcept b h => stmtExprsL b ++ stmtExprsL h

/-- The expressions evaluated by a list of statements. -/
def stmtExprsL : List PyStmt → List PyExpr
  | [] => []
  | s :: rest => stmtExprs s ++ stmtExprsL rest

end

/-- Every expression occurring anywhere in a list of cells. -/
def allExprs (cells : List Cell) : List PyExpr :=
  (stmtExprsL cells.flatten).flatMap subE

/-- Whether an expression is a call to a `.generate` method. -/
def isGenerateCall : PyExpr → Bool
  | .call (.attr _ "generate") _ _ => true
  | _ => false

/-- All `.generate` calls in the notebook, in document order. -/
def generateCalls (cells : List Cell) : List PyExpr :=
  (allExprs cells).filter isGenerateCall

/-- The keyword arguments of a call expression. -/
def callKwargs : PyExpr → List (String × PyExpr)
  | .call _ _ k => k
  | _ => []

/-- Whether a `generate` call has the exact argument shape of the notebook:
the `**`-unpacked tokenised prompt `input` as its only positional argument and
`max_length=512` as its only keyword argument. -/
def generateArgsShape : PyExpr → Bool
  | .call (.attr _ "generate") [.star (.name "input")] [("max_length", .intLit 512)] => true
  | _ => false

/-- Whether a statement, by itself, writes to the machine outside the
in-process Python session: the notebook shell escape (`!wget ...`, which
downloads `requirements.txt` into the working directory) and the notebook
magic (`%pip install ...`, which installs packages into the environment). -/
def touchesOutside : PyStmt → Bool
  | .shell _ => true
  | .magic _ => true
  | _ => false

/-- Indices of the cells containing a statement that writes outside the
session. -/
def outsideCells (cells : List Cell) : List Nat :=
  (cells.enum.filter (fun p => p.2.any touchesOutside)).map (fun p => p.1)

/-- The most recent binding of a variable: the statements already executed are
given most-recent first, and the right-hand side of the latest assignment to
the variable is returned. -/
def lookupPrev : List PyStmt → String → Option PyExpr
  | [], _ => none
  | .assign v r :: rest, n => if v = n then some r else lookupPrev rest n
  | _ :: rest, n => lookupPrev rest n

/-- Whether the variable was bound, at this point of execution, by a
`from_pretrained` call carrying the keyword argument `output_attentions=True`. -/
def loadedWithAttn (prev : List PyStmt) (m : String) : Bool :=
  match lookupPrev prev m with
  | some (.call (.attr _ "from_pretrained") _ kw) =>
      kw.any fun p =>
        match p with
        | ("output_attentions", .boolLit true) => true
        | _ => false
  | _ => false

/-- Whether an expression is a call to one of the two `bertviz` visualisation
entry points used by the notebook, `show` or `model_view`. -/
def isVisCall : PyExpr → Bool
  | .call (.name "show") _ _ => true
  | .call (.name "model_view") _ _ => true
  | _ => false

/-- Looks up a keyword argument by name. -/
def kwLookup : List (String × PyExpr) → String → Option PyExpr
  | [], _ => none
  | (k, e) :: rest, n => if k = n then some e else kwLookup rest n

/-- Claim C9 condition for one positional `model_view(attention, tokens)`
argument: the attention variable is bound to `outputs[-1]`, `outputs` is bound
to a forward pass `m(...)`, and `m` is bound by a `from_pretrained` call with
`output_attentions=True`. -/
def attnArgOk (prev : List PyStmt) (a : String) : Bool :=
  match lookupPrev prev a with
  | some (.subscript (.name o) (.intLit i)) =>
      decide (i = -1) &&
      (match lookupPrev prev o with
       | some (.call (.name m) _ _) => loadedWithAttn prev m
       | _ => false)
  | _ => false

/-- Claim C9 condition for one visualisation call (see `attnArgOk`; the
keyword form additionally requires the three attention fields to be the
`encoder_attentions`/`decoder_attentions`/`cross_attentions` of one and the
same forward-pass result, and `show` receives the attention-enabled model
itself). -/
def visOkAttn (prev : List PyStmt) : PyExpr → Bool
  | .call (.name "show") (.name m :: _) _ => loadedWithAttn prev m
  | .call (.name "model_view") [.name a, _] [] => attnArgOk prev a
  | .call (.name "model_view") [] kw =>
      (match kwLookup kw "encoder_attention", kwLookup kw "decoder_attention",
             kwLookup kw "cross_attention" with
       | some (.attr (.name o1) "encoder_attentions"),
         some (.attr (.name o2) "decoder_attentions"),
         some (.attr (.name o3) "cross_attentions") =>
           decide (o1 = o2) && decide (o2 = o3) &&
           (match lookupPrev prev o1 with
            | some (.call (.name m) _ _) => loadedWithAttn prev m
            | _ => false)
       | _, _, _ => false)
  | _ => false

/-- Runs a per-call check over every visualisation call of a statement list in
execution order, handing each check the statements already executed. -/
def allVisOk (f : List PyStmt → PyExpr → Bool) : List PyStmt → List PyStmt → Bool
  | _, [] => true
  | prev, s :: rest =>
      (((stmtExprs s).flatMap subE).filter isVisCall).all (f prev) &&
      allVisOk f (s :: prev) rest

/-- Claim C9 for a whole notebook. -/
def attnSourcesOk (cells : List Cell) : Bool :=
  allVisOk visOkAttn [] cells.flatten

/-- The visualisation calls of a notebook, in document order. -/
def visCalls (cells : List Cell) : List PyExpr :=
  (allExprs cells).filter isVisCall

/-- Whether an expression is a `model_view` call. -/
def isModelViewCall : PyExpr → Bool
  | .call (.name "model_view") _ _ => true
  | _ => false

/-- Claim C10 condition for a positional `model_view(attention, tokens)` call:
the token labels are `convert_ids_to_tokens(inputs[0])` for exactly the
variable `inputs` that the forward pass producing the attention consumed. -/
def tokensArgOk (prev : List PyStmt) (a t : String) : Bool :=
  match lookupPrev prev a with
  | some (.subscript (.name o) (.intLit i)) =>
      decide (i = -1) &&
      (match lookupPrev prev o with
       | some (.call (.name _) [.name inp] _) =>
          (match lookupPrev prev t with
           | some (.call (.attr (.name _) "convert_ids_to_tokens")
               [.subscript (.name inp2) (.intLit j)] _) =>
              decide (j = 0) && decide (inp2 = inp)
           | _ => false)
       | _ => false)
  | _ => false

/-- Claim C10 condition for one `model_view` call (`show` is not constrained
by the claim): in the keyword form, the encoder and decoder token labels must
each be `convert_ids_to_tokens` of row 0 of the very id tensors passed as
`input_ids` and `decoder_input_ids` to the forward pass. -/
def visOkTokens (prev : List PyStmt) : PyExpr → Bool
  | .call (.name "model_view") [.name a, .name t] [] => tokensArgOk prev a t
  | .call (.name "model_view") [] kw =>
      (match kwLookup kw "encoder_attention", kwLookup kw "encoder_tokens",
             kwLookup kw "decoder_tokens" with
       | some (.attr (.name o) _), some (.name et), some (.name dt) =>
         (match lookupPrev prev o with
          | some (.call (.name _) [] fkw) =>
            (match kwLookup fkw "input_ids", kwLookup fkw "decoder_input_ids" with
             | some (.name encIn), some (.name decIn) =>
               (match lookupPrev prev et, lookupPrev prev dt with
                | some (.call (.attr _ "convert_ids_to_tokens")
                    [.subscript (.name e1) (.intLit z1)] _),
                  some (.call (.attr _ "convert_ids_to_tokens")
                    [.subscript (.name d1) (.intLit z2)] _) =>
                    decide (z1 = 0) && decide (z2 = 0) &&
                    decide (e1 = encIn) && decide (d1 = decIn)
                | _, _ => false)
             | _, _ => false)
          | _ => false)
       | _, _, _ => false)
  | .call (.name "model_view") _ _ => false
  | _ => true

/-- Claim C10 for a whole notebook. -/
def tokenLabelsOk (cells : List Cell) : Bool :=
  allVisOk visOkTokens [] cells.flatten

/-! ### Cell-order dependency (claim C8) -/

/-- Whether an expression is a call that loads a model, tokenizer, or pipeline
handle: a `from_pretrained` class method or the `pipeline` factory. -/
def isLoadCall : PyExpr → Bool
  | .call (.attr _ "from_pretrained") _ _ => true
  | .call (.name "pipeline") _ _ => true
  | _ => false

/-- The variable assigned by a statement, if any. -/
def stmtAssignee : PyStmt → Option String
  | .assign v _ => some v
  | _ => none

/-- The names of all model/tokenizer/pipeline handles the notebook ever
assigns: left-hand sides of assignments whose right-hand side is a load call. -/
def handleNames (cells : List Cell) : List String :=
  cells.flatten.flatMap fun s =>
    match s with
    | .assign v r => if isLoadCall r then [v] else []
    | _ => []

/-- The variable names an expression mentions. -/
def namesUsed (e : PyExpr) : List String :=
  (subE e).flatMap fun x =>
    match x with
    | .name s => [s]
    | _ => []

/-- The variable names a statement reads. -/
def stmtUses (s : PyStmt) : List String :=
  (stmtExprs s).flatMap namesUsed

/-- Checks one cell: every handle a statement reads must be assigned by an
earlier cell or (when `allowLocal` is set) by an earlier statement of the
same cell; local assignments accumulate as the cell runs. -/
def cellDepOk (allowLocal : Bool) (hs earlier : List String) : List String → Cell → Bool
  | _, [] => true
  | loc, s :: rest =>
      ((stmtUses s).all fun n =>
        !(hs.contains n) || earlier.contains n || (allowLocal && loc.contains n)) &&
      cellDepOk allowLocal hs earlier
        (loc ++ (match stmtAssignee s with | some v => [v] | none => [])) rest

/-- Checks a notebook cell by cell, accumulating the names assigned by
completed cells. -/
def cellsDepOk (allowLocal : Bool) (hs : List String) : List String → List Cell → Bool
  | _, [] => true
  | earlier, c :: rest =>
      cellDepOk allowLocal hs earlier [] c &&
      cellsDepOk allowLocal hs
        (earlier ++ c.flatMap (fun s => (stmtAssignee s).toList)) rest

/-- Claim C8 as stated: every model/tokenizer/pipeline handle a cell uses is
assigned by some strictly earlier cell. -/
def strictCellDeps (cells : List Cell) : Bool :=
  cellsDepOk false (handleNames cells) [] cells

/-- Claim C8 amended: every handle a cell uses is assigned by a strictly
earlier cell or by an earlier statement of the same cell, so top-to-bottom
execution never evaluates a handle reference before the assignment that
loads it. -/
def linearCellDeps (cells : List Cell) : Bool :=
  cellsDepOk true (handleNames cells) [] cells

/-! ### Exception propagation (claim C5)

A small error semantics for the embedded fragment.  Only calls into the
external libraries can raise; an oracle maps the name of the callee to either
success or a raised error.  Evaluation raises the first error encountered, and
`try`/`except` is the one construct that can intercept an error.  The claim is
that the notebook contains no such construct, so every error a run of the
notebook produces is exactly an error the oracle produced. -/

/-- A raised Python error, identified by its message. -/
structure PyError where
  msg : String
  deriving DecidableEq

/-- An oracle giving, for each callee name, the error the external library
raises on that call (or `none` when the call succeeds). -/
abbrev ErrOracle := String → Option PyError

/-- The name under which a call site reaches the external world: the function
name, or the method/attribute name for attribute calls. -/
def calleeKey : PyExpr → String
  | .name s => s
  | .attr _ fld => fld
  | _ => ""

mutual

/-- The first error raised while evaluating an expression: subterms are
evaluated left to right, then the call itself may raise via the oracle. -/
def firstErrE (orc : ErrOracle) : PyExpr → Option PyError
  | .name _ => none
  | .strLit _ => none
  | .intLit _ => none
  | .boolLit _ => none
  | .attr e _ => firstErrE orc e
  | .call f args kw =>
      (match firstErrE orc f with
       | some er => some er
       | none =>
         match firstErrL orc args with
         | some er => some er
         | none =>
           match firstErrK orc kw with
           | some er => some er
           | none => orc (calleeKey f))
  | .subscript e i =>
      (match firstErrE orc e with
       | some er => some er
       | none => firstErrE orc i)
  | .star e => firstErrE orc e
  | .binop _ a b =>
      (match firstErrE orc a with
       | some er => some er
       | none => firstErrE orc b)
  | .fstr ps => firstErrL orc ps
  | .listComp b _ it =>
      (match firstErrE orc it with
       | some er => some er
       | none => firstErrE orc b)

/-- First error over a list of expressions. -/
def firstErrL (orc : ErrOracle) : List PyExpr → Option PyError
  | [] => none
  | e :: es =>
      (match firstErrE orc e with
       | some er => some er
       | none => firstErrL orc es)

/-- First error over keyword-argument values. -/
def firstErrK (orc : ErrOracle) : List (String × PyExpr) → Option PyError
  | [] => none
  | (_, e) :: ps =>
      (match firstErrE orc e with
       | some er => some er
       | none => firstErrK orc ps)

end

mutual

/-- Runs one statement: the error it raises, if any.  A `try`/`except` block
swallows any error of its body and runs the handler instead. -/
def runStmt (orc : ErrOracle) : PyStmt → Option PyError
  | .assign _ r => firstErrE orc r
  | .exprStmt e => firstErrE orc e
  | .importFrom _ _ => none
  | .shell _ => none
  | .magic _ => none
  | .tryExcept body handler =>
      (match runStmts orc body with
       | some _ => runStmts orc handler
       | none => none)

/-- Runs a list of statements, stopping at the first raised error. -/
def runStmts (orc : ErrOracle) : List PyStmt → Option PyError
  | [] => none
  | s :: rest =>
      (match runStmt orc s with
       | some er => some er
       | none => runStmts orc rest)

end

mutual

/-- Whether a statement contains no `try`/`except` construct. -/
def catchFreeS : PyStmt → Bool
  | .assign _ _ => true
  | .exprStmt _ => true
  | .importFrom _ _ => true
  | .shell _ => true
  | .magic _ => true
  | .tryExcept _ _ => false

/-- Whether a statement list contains no `try`/`except` construct. -/
def catchFreeL : List PyStmt → Bool
  | [] => true
  | s :: rest => catchFreeS s && catchFreeL rest

end

mutual

/-- Every error evaluation of an expression raises is an error the oracle
raised, unmodified. -/
theorem firstErrE_from_oracle (orc : ErrOracle) :
    ∀ (e : PyExpr) (er : PyError), firstErrE orc e = some er →
      ∃ k, orc k = some er
  | .name _, _, h => by simp [firstErrE] at h
  | .strLit _, _, h => by simp [firstErrE] at h
  | .intLit _, _, h => by simp [firstErrE] at h
  | .boolLit _, _, h => by simp [firstErrE] at h
  | .attr e _, er, h => firstErrE_from_oracle orc e er (by simpa [firstErrE] using h)
  | .call f args kw, er, h => by
      rw [firstErrE] at h
      cases hf : firstErrE orc f with
      | some e1 => exact firstErrE_from_oracle orc f er (by rw [hf] at h ⊢; simpa using h)
      | none =>
        rw [hf] at h
        cases ha : firstErrL orc args with
        | some e2 => exact firstErrL_from_oracle orc args er (by rw [ha] at h ⊢; simpa using h)
        | none =>
          rw [ha] at h
          cases hk : firstErrK orc kw with
          | some e3 => exact firstErrK_from_oracle orc kw er (by rw [hk] at h ⊢; simpa using h)
          | none => rw [hk] at h; exact ⟨calleeKey f, h⟩
  | .subscript e i, er, h => by
      rw [firstErrE] at h
      cases he : firstErrE orc e with
      | some e1 => exact firstErrE_from_oracle orc e er (by rw [he] at h ⊢; simpa using h)
      | none => rw [he] at h; exact firstErrE_from_oracle orc i er h
  | .star e, er, h => firstErrE_from_oracle orc e er (by simpa [firstErrE] using h)
  | .binop _ a b, er, h => by
      rw [firstErrE] at h
      cases ha : firstErrE orc a with
      | some e1 => exact firstErrE_from_oracle orc a er (by rw [ha] at h ⊢; simpa using h)
      | none => rw [ha] at h; exact firstErrE_from_oracle orc b er h
  | .fstr ps, er, h => firstErrL_from_oracle orc ps er (by simpa [firstErrE] using h)
  | .listComp b _ it, er, h => by
      rw [firstErrE] at h
      cases hit : firstErrE orc it with
      | some e1 => exact firstErrE_from_oracle orc it er (by rw [hit] at h ⊢; simpa using h)
      | none => rw [hit] at h; exact firstErrE_from_oracle orc b er h

/-- Every error evaluation of an expression list raises is an oracle error. -/
theorem firstErrL_from_oracle (orc : ErrOracle) :
    ∀ (es : List PyExpr) (er : PyError), firstErrL orc es = some er →
      ∃ k, orc k = some er
  | [], _, h => by simp [firstErrL] at h
  | e :: es, er, h => by
      rw [firstErrL] at h
      cases he : firstErrE orc e with
      | some e1 => exact firstErrE_from_oracle orc e er (by rw [he] at h ⊢; simpa using h)
      | none => rw [he] at h; exact firstErrL_from_oracle orc es er h

/-- Every error evaluation of keyword arguments raises is an oracle error. -/
theorem firstErrK_from_oracle (orc : ErrOracle) :
    ∀ (ps : List (String × PyExpr)) (er : PyError), firstErrK orc ps = some er →
      ∃ k, orc k = some er
  | [], _, h => by simp [firstErrK] at h
  | (_, e) :: ps, er, h => by
      rw [firstErrK] at h
      cases he : firstErrE orc e with
      | some e1 => exact firstErrE_from_oracle orc e er (by rw [he] at h ⊢; simpa using h)
      | none => rw [he] at h; exact firstErrK_from_oracle orc ps er h

end

mutual

/-- For a statement free of `try`/`except`, every error its run produces is an
oracle error, unmodified. -/
theorem runStmt_from_oracle (orc : ErrOracle) :
    ∀ (s : PyStmt) (er : PyError), catchFreeS s = true →
      runStmt orc s = some er → ∃ k, orc k = some er
  | .assign _ r, er, _, h => firstErrE_from_oracle orc r er (by simpa [runStmt] using h)
  | .exprStmt e, er, _, h => firstErrE_from_oracle orc e er (by simpa [runStmt] using h)
  | .importFrom _ _, _, _, h => by simp [runStmt] at h
  | .shell _, _, _, h => by simp [runStmt] at h
  | .magic _, _, _, h => by simp [runStmt] at h
  | .tryExcept _ _, _, hc, _ => by simp [catchFreeS] at hc

/-- For a statement list free of `try`/`except`, every error its run produces
is an oracle error, unmodified. -/
theorem runStmts_from_oracle (orc : ErrOracle) :
    ∀ (ss : List PyStmt) (er : PyError), catchFreeL ss = true →
      runStmts orc ss = some er → ∃ k, orc k = some er
  | [], _, _, h => by simp [runStmts] at h
  | s :: rest, er, hc, h => by
      rw [runStmts] at h
      rw [catchFreeL, Bool.and_eq_true] at hc
      cases hs : runStmt orc s with
      | some e1 => exact runStmt_from_oracle orc s er hc.1 (by rw [hs] at h ⊢; simpa using h)
      | none => rw [hs] at h; exact runStmts_from_oracle orc rest er hc.2 h

end

/-! ### The fill-mask pipeline (claim C1)

The pipeline itself lives in the external `transformers` library; the
definitions below are modelled from the specification. -/

/-- One entry of the ranked list the fill-mask pipeline returns: a
fill-candidate string and its numeric score. -/
structure FillResult where
  token_str : String
  score : ℚ
  deriving DecidableEq

/-- Ranked-list order: an entry precedes another when its score is at least as
large. -/
def scoreGe (a b : FillResult) : Prop := b.score ≤ a.score

instance : DecidableRel scoreGe := fun a b =>
  inferInstanceAs (Decidable (b.score ≤ a.score))

instance : IsTotal FillResult scoreGe := ⟨fun a b => le_total b.score a.score⟩

instance : IsTrans FillResult scoreGe :=
  ⟨fun _ _ _ hab hbc => le_trans hbc hab⟩

/-- Counts the occurrences of a pattern in a character list. -/
def countPattern (pat : List Char) : List Char → Nat
  | [] => 0
  | c :: rest =>
      (if pat.isPrefixOf (c :: rest) then 1 else 0) + countPattern pat rest

/-- Whether a sentence contains exactly one `[MASK]` placeholder. -/
def containsOneMask (s : String) : Bool :=
  countPattern "[MASK]".toList s.toList == 1

/-- Modelled from the spec: the external fill-mask pipeline call.  The model
behind the pipeline (external, here a parameter) scores every candidate fill
for the masked position; the pipeline returns the `topk` best candidates in
non-increasing score order, and fails on input that does not carry exactly one
mask placeholder.  No custom ranking, filtering, or post-processing beyond
this is performed. -/
def unmasker (model : List FillResult) (topk : Nat) (s : String) :
    Option (List FillResult) :=
  if containsOneMask s then
    some ((List.insertionSort scoreGe model).take topk)
  else
    none

/-! ### Word-piece tokenisation (claim C2) -/

/-- Modelled from the spec: the fragment of the BERT word-piece vocabulary the
walkthrough needs — the special tokens and the sub-word pieces of `WANDISCO`
(the spec: the word may be split into `WA ##ND ##IS ##CO`); ids are symbolic
stand-ins for the real vocabulary indices, which the external library owns. -/
def bertVocab : List (String × Nat) :=
  [("[CLS]", 101), ("[SEP]", 102), ("[UNK]", 100),
   ("WA", 2777), ("##ND", 4859), ("##IS", 6258), ("##CO", 8887)]

/-- The candidate word-piece token spelled by some characters: continuation
pieces carry a `##` marker. -/
def pieceSpelling (cont : Bool) (cs : List Char) : String :=
  (if cont then "##" else "") ++ String.mk cs

/-- Greedy longest-match step: try prefixes of the remaining characters from
the given length downwards and return the longest one in the vocabulary
together with the remaining characters. -/
def longestPiece (cont : Bool) (cs : List Char) : Nat → Option (String × List Char)
  | 0 => none
  | n + 1 =>
      let cand := pieceSpelling cont (cs.take (n + 1))
      if bertVocab.any (fun p => p.1 == cand) then some (cand, cs.drop (n + 1))
      else longestPiece cont cs n

/-- Modelled from the spec: word-piece splitting of one word by repeated
greedy longest match, falling back to `[UNK]` when no piece matches. -/
def wordpieceGo : Nat → Bool → List Char → List String
  | 0, _, _ => []
  | _, _, [] => []
  | fuel + 1, cont, cs =>
      match longestPiece cont cs cs.length with
      | none => ["[UNK]"]
      | some (tok, rest) => tok :: wordpieceGo fuel true rest

/-- Word-piece tokenisation of a string. -/
def wordpiece (s : String) : List String :=
  wordpieceGo s.length false s.toList

/-- The id of a token string in the modelled vocabulary. -/
def pieceId (tok : String) : Nat :=
  match bertVocab.find? (fun p => p.1 == tok) with
  | some p => p.2
  | none => 100

/-- The token string of an id in the modelled vocabulary. -/
def pieceOfId (i : Nat) : String :=
  match bertVocab.find? (fun p => p.2 == i) with
  | some p => p.1
  | none => "[UNK]"

/-- Modelled from the spec: `tokenizer.encode` — word-piece pieces of the
input surrounded by the `[CLS]` and `[SEP]` special tokens, mapped to ids. -/
def encode (s : String) : List Nat :=
  (("[CLS]" :: wordpiece s) ++ ["[SEP]"]).map pieceId

/-- Modelled from the spec: `tokenizer.convert_ids_to_tokens` — each id is
mapped back to its token string, one for one. -/
def convert_ids_to_tokens (ids : List Nat) : List String :=
  ids.map pieceOfId

/-! ### T5 generation and decoding (claim C3) -/

/-- Modelled from the spec: the string spelling of a T5 output id when special
tokens are not skipped (the notebook calls `batch_decode` without
`skip_special_tokens`), with the conventional `<pad>`/`</s>`/`<unk>` ids. -/
def t5TokenString (i : Nat) : String :=
  match i with
  | 0 => "<pad>"
  | 1 => "</s>"
  | 2 => "<unk>"
  | n + 3 => "w" ++ toString (n + 3)

/-- The end-of-sequence id of the modelled T5 vocabulary. -/
def eosId : Nat := 1

/-- Generation loop: repeatedly ask the model (external, here the parameter
`step`, a function of the encoder input and the ids generated so far) for the
next id, stopping at end-of-sequence or when the length budget runs out. -/
def genTail (step : List Nat → List Nat → Nat) (input : List Nat) :
    Nat → List Nat → List Nat
  | 0, _ => []
  | fuel + 1, soFar =>
      let nxt := step input soFar
      if nxt = eosId then [eosId]
      else nxt :: genTail step input fuel (soFar ++ [nxt])

/-- Modelled from the spec: `model.generate` — autoregressive decoding that
starts from the decoder start token (the pad id, 0) and extends the sequence
until end-of-sequence or `max_length` ids. -/
def generate (step : List Nat → List Nat → Nat) (max_length : Nat)
    (input : List Nat) : List Nat :=
  0 :: genTail step input (max_length - 1) [0]

/-- Decodes one id sequence to a string by concatenating token spellings. -/
def decodeIds (ids : List Nat) : String :=
  (ids.map t5TokenString).foldr (· ++ ·) ""

/-- Modelled from the spec: `tokenizer.batch_decode` — decodes each sequence
of a batch. -/
def batch_decode (seqs : List (List Nat)) : List String :=
  seqs.map decodeIds

/-! ### Checkpoint loading (claim C6) -/

/-- A loaded model/tokenizer handle: the checkpoint it was loaded from and
whether it is usable. -/
structure Handle where
  checkpoint : String
  loaded : Bool
  deriving DecidableEq

/-- Modelled from the spec: `from_pretrained` — fetches the named checkpoint
and returns a usable handle; the repository adds no caching or invalidation
around it, so the call is a function of the identifier alone (in particular
independent of any session state left by earlier loads). -/
def from_pretrained (ckpt : String) : Handle :=
  { checkpoint := ckpt, loaded := true }

/-- Running the same load twice in one session: the handles returned by two
consecutive `from_pretrained` calls with the same identifier. -/
def loadTwice (ckpt : String) : Handle × Handle :=
  (from_pretrained ckpt, from_pretrained ckpt)

/-- Cells of the notebook that load a tokenizer with
`AutoTokenizer.from_pretrained(model_version)` — the very call the session
repeats. -/
def autoTokenizerLoadCells (cells : List Cell) : List Nat :=
  (cells.enum.filter fun p =>
    p.2.any fun s =>
      match s with
      | .assign _ (.call (.attr (.name "AutoTokenizer") "from_pretrained")
          [.name "model_version"] []) => true
      | _ => false).map (fun p => p.1)

/-- Decoding pulls each token string off the front of the sequence. -/
theorem decodeIds_cons (i : Nat) (ids : List Nat) :
    decodeIds (i :: ids) = t5TokenString i ++ decodeIds ids := rfl

/-! ### The claims -/

/-- Claim C1: for the input sentence `The man worked as a [MASK].` (a string
containing a single masked placeholder), the fill-mask pipeline call returns a
non-empty ranked list in which every entry carries a fill-candidate string and
a numeric score (entries are `FillResult`s drawn from the model's candidate
scores), and the scores are in non-increasing order.  Stated for any non-empty
candidate scoring and any positive number of returned predictions (the
pipeline default is 5). -/
theorem fill_mask_ranked_list (model : List FillResult) (topk : Nat)
    (hm : model ≠ []) (hk : 1 ≤ topk) :
    ∃ l, unmasker model topk "The man worked as a [MASK]." = some l ∧
      l ≠ [] ∧ List.Sorted scoreGe l ∧ ∀ p ∈ l, p ∈ model := by
  have hmask : containsOneMask "The man worked as a [MASK]." = true := by decide
  refine ⟨(List.insertionSort scoreGe model).take topk, ?_, ?_, ?_, ?_⟩
  · rw [unmasker, hmask]
    rfl
  · have h1 : 0 < model.length := List.length_pos.mpr hm
    have h2 : 0 < ((List.insertionSort scoreGe model).take topk).length := by
      rw [List.length_take, List.length_insertionSort]
      omega
    exact List.length_pos.mp h2
  · exact List.Pairwise.sublist (List.take_sublist _ _)
      (List.sorted_insertionSort scoreGe model)
  · intro p hp
    exact (List.mem_insertionSort scoreGe).mp ((List.take_sublist _ _).subset hp)

/-- Witness for C1: a concrete two-candidate scoring, asking for the default
five predictions. -/
theorem fill_mask_ranked_list_witness :
    ∃ l, unmasker [⟨"carpenter", 1/2⟩, ⟨"waiter", 1/4⟩] 5
        "The man worked as a [MASK]." = some l ∧
      l ≠ [] ∧ List.Sorted scoreGe l ∧
      ∀ p ∈ l, p ∈ ([⟨"carpenter", 1/2⟩, ⟨"waiter", 1/4⟩] : List FillResult) :=
  fill_mask_ranked_list [⟨"carpenter", 1/2⟩, ⟨"waiter", 1/4⟩] 5
    (by simp) (by omega)

/-- Claim C2: for the literal input string `WANDISCO`, applying
`tokenizer.encode` and then `tokenizer.convert_ids_to_tokens` to the resulting
id sequence yields a non-empty ordered sequence of token strings whose length
equals the length of the id sequence; concretely the round trip produces the
pieces the spec names, wrapped in the `[CLS]`/`[SEP]` special tokens (and the
length/non-emptiness facts hold for every input string). -/
theorem tokenize_roundtrip_length :
    convert_ids_to_tokens (encode "WANDISCO") =
      ["[CLS]", "WA", "##ND", "##IS", "##CO", "[SEP]"] ∧
    ∀ s : String, (convert_ids_to_tokens (encode s)).length = (encode s).length ∧
      convert_ids_to_tokens (encode s) ≠ [] := by
  refine ⟨by decide, fun s => ⟨?_, ?_⟩⟩
  · simp [convert_ids_to_tokens]
  · simp [convert_ids_to_tokens, encode]

/-- Claim C3: for the prompt `translate English to German: I flew to
Germany.`, the T5 generation call followed by batch decoding returns a
non-empty decoded string — for any next-id model `step`, any encoding of the
prompt, and any length budget, since generation always emits the decoder
start token, whose spelling `<pad>` survives a decode that does not skip
special tokens. -/
theorem t5_generation_decodes_nonempty
    (step : List Nat → List Nat → Nat) (enc : String → List Nat)
    (max_length : Nat) :
    ∃ s, batch_decode
        [generate step max_length
          (enc "translate English to German: I flew to Germany.")] = [s] ∧
      s ≠ "" := by
  refine ⟨decodeIds (generate step max_length
    (enc "translate English to German: I flew to Germany.")), rfl, ?_⟩
  intro hEmpty
  have hlen := congrArg String.length hEmpty
  rw [generate, decodeIds_cons, String.length_append] at hlen
  simp at hlen
  exact absurd hlen.1 (by decide)

/-- Claim C4 counterexample: it is not the case that every text-generation
invocation in the notebook passes only the prompt with no custom decoding
parameters — both `generate` calls carry the keyword argument
`max_length=512`. -/
theorem generate_defaults_cex :
    ¬ (∀ e ∈ generateCalls notebook, (callKwargs e).isEmpty = true) := by
  decide

/-- Claim C4 amended: both text-generation invocations in the notebook pass
the unpacked tokenised prompt as their only positional argument and exactly
one explicit decoding parameter, `max_length=512`; no other decoding
parameter, sampling, or beam-search setting is implemented, so the external
defaults apply to everything but the length bound. -/
theorem generate_max_length_512 :
    (generateCalls notebook).length = 2 ∧
    (generateCalls notebook).all generateArgsShape = true := by
  decide

/-- Claim C5: the notebook contains no `try`/`except` anywhere, and
consequently, for every behaviour of the external libraries, any error raised
during a top-to-bottom run of the notebook is exactly an error the external
library raised — nothing is caught, transformed, or replaced by a user-facing
message layer. -/
theorem errors_propagate_unmodified :
    catchFreeL notebook.flatten = true ∧
    ∀ (orc : ErrOracle) (er : PyError),
      runStmts orc notebook.flatten = some er → ∃ k, orc k = some er := by
  refine ⟨by decide, fun orc er h => ?_⟩
  exact runStmts_from_oracle orc notebook.flatten er (by decide) h

/-- An oracle on which the first checkpoint fetch fails with a network
error. -/
def failingOracle : ErrOracle :=
  fun k => if k = "from_pretrained" then some ⟨"ConnectionError"⟩ else none

/-- Witness for C5: under `failingOracle` the notebook run surfaces exactly
the oracle's `ConnectionError`. -/
theorem errors_propagate_unmodified_witness :
    ∃ k, failingOracle k = some ⟨"ConnectionError"⟩ :=
  errors_propagate_unmodified.2 failingOracle ⟨"ConnectionError"⟩ (by decide)

/-- Claim C6: the notebook repeats the very same tokenizer-loading call
`AutoTokenizer.from_pretrained(model_version)` in its third and seventh code
cells (indices 2 and 6), and — the loader being modelled as a pure function of
the identifier, since the repository adds no caching or invalidation — a
second load with the same identifier succeeds and yields a handle equal in
behaviour to the first. -/
theorem repeat_load_idempotent :
    autoTokenizerLoadCells notebook = [2, 6] ∧
    ∀ ckpt : String, (loadTwice ckpt).1 = (loadTwice ckpt).2 ∧
      (loadTwice ckpt).1.loaded = true ∧ (loadTwice ckpt).2.loaded = true := by
  exact ⟨by decide, fun _ => ⟨rfl, rfl, rfl⟩⟩

/-- Claim C7 counterexample: it is not the case that no statement of the
notebook writes outside the in-process session — the first cell runs the
shell escape `!wget .../requirements.txt`, which downloads `requirements.txt`
into the working directory, and the magic `%pip install -r requirements.txt`,
which installs packages into the environment. -/
theorem no_persistence_cex :
    ¬ (∀ c ∈ notebook, ∀ s ∈ c, touchesOutside s = false) := by
  decide

/-- Claim C7 amended: the dependency-installation cell (index 0) is the only
cell whose statements write outside the in-process session (its `wget` shell
escape and `pip install` magic); every statement of every later cell is free
of such writes, everything else crossing the boundary only through the
external libraries. -/
theorem persistence_only_install_cell :
    outsideCells notebook = [0] ∧
    ((notebook.drop 1).all fun c => c.all fun s => !touchesOutside s) = true := by
  decide

/-- Claim C8 counterexample: it is false that every model/tokenizer/pipeline
handle a cell uses is assigned by some strictly earlier cell — the fourth code
cell assigns `unmasker` and calls it in the same cell, and no strictly earlier
cell assigns it (second conjunct: that cell fails the check even given all
names assigned by the cells before it). -/
theorem cell_dependency_cex :
    strictCellDeps notebook = false ∧
    cellDepOk false (handleNames notebook)
      ["model_type", "model_version", "tokenizer", "test_string",
       "token_ids", "tokens"] [] cellUnmasker = false := by
  decide

/-- Claim C8 amended: every model, tokenizer, or pipeline handle a cell uses
is assigned by some strictly earlier cell or by an earlier statement of the
same cell, so running the cells in top-to-bottom order never evaluates a
handle reference before the assignment that loads it has executed. -/
theorem cell_dependency_linear :
    linearCellDeps notebook = true := by
  decide

/-- Claim C9: the notebook makes exactly four visualisation calls (`show`
once, `model_view` three times), and in each one the model whose attention is
visualised was loaded with `output_attentions=True` and the attention
structure handed to the visualiser is taken from a forward pass of that same
model — `outputs[-1]` for the BERT cells, the
`encoder_attentions`/`decoder_attentions`/`cross_attentions` fields of one
forward-pass result for the T5 cell, and the attention-enabled model itself
for the neuron view. -/
theorem attention_sources_ok :
    attnSourcesOk notebook = true ∧ (visCalls notebook).length = 4 := by
  decide

/-- Claim C10: in each of the three `model_view` cells, the token labels
passed to the visualiser are produced by `convert_ids_to_tokens` applied to
row 0 of exactly the id tensor that the forward pass producing the attention
consumed, so labels and attention matrices always correspond to the same
encoding. -/
theorem token_labels_match_forward_pass :
    tokenLabelsOk notebook = true ∧
    ((allExprs notebook).filter isModelViewCall).length = 3 := by
  decide

end LMs
